import Mathlib

/-!
Shallow embedding of the note-based asset transfer protocol layer of the
network-faucet-deployment repository (Rust sources `src/main.rs`,
`src/bin/mint.rs`, `src/bin/deploy.rs`).

The embedding covers:
* the note factory `create_p2id_note_exact` (identical in `src/main.rs`
  lines 24-42 and `src/bin/mint.rs` lines 23-41);
* the confirmation wait loop `wait_for_transaction`
  (`src/bin/mint.rs` lines 44-84), embedded as a fuel-indexed interpreter
  over an oracle describing what each poll iteration observes, plus an
  event-trace semantics for ordering properties;
* the owner-id derivation from faucet storage slot 2
  (`src/main.rs` lines 147-148, `src/bin/mint.rs` lines 163-164);
* the top-level pipeline shapes of the two mint flows, as event lists.

Validation performed inside the miden_client library (NoteAssets::new,
NoteMetadata::new, NoteTag::from_account_id, note commitment hashing) is
not part of this repository's sources; those functions are modelled from
the spec's words and marked as such in their doc comments.
-/

namespace NetworkFaucet

/-- A base field element. The Rust code manipulates `Felt` values opaquely
(account id halves, aux fields, serial numbers); their field width plays no
role in the claims, so they are embedded as natural numbers. -/
abbrev Felt := Nat

/-- A 4-element word of field elements, as used for storage items and note
serial numbers (`Word` in the Rust sources). -/
structure Word where
  w0 : Felt
  w1 : Felt
  w2 : Felt
  w3 : Felt
deriving DecidableEq, Repr

/-- Indexing `word[i]` from the Rust sources. -/
def Word.get (w : Word) : Fin 4 → Felt
  | 0 => w.w0
  | 1 => w.w1
  | 2 => w.w2
  | 3 => w.w3

/-- An account identifier: a pair of field elements. In miden terms `pfx` is
the id's first element (returned by `prefix().as_felt()`) and `sfx` the
second (returned by `suffix()`). -/
structure AccountId where
  pfx : Felt
  sfx : Felt
deriving DecidableEq, Repr

/-- Embeds `AccountId::new_unchecked([e0, e1])`: packs two raw field
elements into an account id with no validity check of any kind — the
function is total and has no error branch. -/
def AccountId.new_unchecked (elements : Felt × Felt) : AccountId :=
  { pfx := elements.1, sfx := elements.2 }

/-- Embeds `id.suffix()`. -/
def AccountId.suffix (id : AccountId) : Felt := id.sfx

/-- Embeds `id.prefix().as_felt()`. -/
def AccountId.prefix_as_felt (id : AccountId) : Felt := id.pfx

/-- A fungible asset: a faucet id and an amount (`FungibleAsset`). -/
structure Asset where
  faucet_id : AccountId
  amount : Nat
deriving DecidableEq, Repr

/-- Note visibility (`NoteType::Public` / `NoteType::Private`). -/
inductive NoteType where
  | publicNote
  | privateNote
deriving DecidableEq, Repr

/-- The note-construction error kind (`NoteError`). The concrete variants
follow the failure conditions the spec names for the note factory. -/
inductive NoteError where
  | emptyAssets
  | incompatibleAssets
  | invalidMetadataEncoding
deriving DecidableEq, Repr

/-- Whether two assets in one vault come from the same faucet: the spec's
"incompatible asset combinations" rejected by the vault. -/
def hasDuplicateFaucet : List Asset → Bool
  | [] => false
  | a :: rest => rest.any (fun b => a.faucet_id = b.faucet_id) || hasDuplicateFaucet rest

/-- A note's asset vault (`NoteAssets`). -/
structure NoteAssets where
  assets : List Asset
deriving DecidableEq, Repr

/-- Modelled from the spec: `NoteAssets::new` lives in the miden_client
dependency, not in this repository's sources. Per the spec the vault
construction "fails with NoteConstructionError when assets is empty ...
or when the vault rejects incompatible asset combinations". -/
def NoteAssets.new (assets : List Asset) : Except NoteError NoteAssets :=
  if assets.isEmpty then .error .emptyAssets
  else if hasDuplicateFaucet assets then .error .incompatibleAssets
  else .ok ⟨assets⟩

/-- A note routing tag (`NoteTag`), a 32-bit value. -/
structure NoteTag where
  value : Nat
deriving DecidableEq, Repr

/-- Modelled from the spec: `NoteTag::from_account_id` lives in the
miden_client dependency. Per the spec the routing tag is "derived
deterministically from `target`" alone; it is embedded as a pure function
of the target id producing a 32-bit tag value. -/
def NoteTag.from_account_id (target : AccountId) : NoteTag :=
  ⟨target.pfx % 2 ^ 32⟩

/-- Whether a tag value satisfies its encoding constraint (fits the 32-bit
tag width). -/
def tagEncodingOk (tag : NoteTag) : Bool := tag.value < 2 ^ 32

/-- The note execution hint; the sources only ever use
`NoteExecutionHint::always()`. -/
inductive NoteExecutionHint where
  | always
deriving DecidableEq, Repr

/-- Note provenance and routing metadata (`NoteMetadata`). -/
structure NoteMetadata where
  sender : AccountId
  note_type : NoteType
  tag : NoteTag
  hint : NoteExecutionHint
  aux : Felt
deriving DecidableEq, Repr

/-- Modelled from the spec: `NoteMetadata::new` lives in the miden_client
dependency. Per the spec, metadata construction fails "when metadata fields
violate encoding constraints (e.g. tag construction fails)". -/
def NoteMetadata.new (sender : AccountId) (note_type : NoteType) (tag : NoteTag)
    (hint : NoteExecutionHint) (aux : Felt) : Except NoteError NoteMetadata :=
  if tagEncodingOk tag then .ok ⟨sender, note_type, tag, hint, aux⟩
  else .error .invalidMetadataEncoding

/-- An opaque note script reference; the core treats a script only as a
reference used inside commitment computation. -/
structure NoteScript where
  root : Nat
deriving DecidableEq, Repr

/-- The well-known note kinds (`WellKnownNote`); the sources use `P2ID`. -/
inductive WellKnownNote where
  | P2ID
deriving DecidableEq, Repr

/-- Embeds `WellKnownNote::P2ID.script()`: the registry supplies the
standard script for each well-known note by symbolic name. -/
def WellKnownNote.script : WellKnownNote → NoteScript
  | .P2ID => ⟨1⟩

/-- A note's ordered input fields (`NoteInputs`). -/
structure NoteInputs where
  values : List Felt
deriving DecidableEq, Repr

/-- Modelled from the spec: `NoteInputs::new` lives in the miden_client
dependency. The spec imposes no constraint on the input list of a P2ID
note (always the two-field decomposition of the target id), so the inputs
are accepted as given. -/
def NoteInputs.new (values : List Felt) : Except NoteError NoteInputs :=
  .ok ⟨values⟩

/-- A note recipient (`NoteRecipient`): serial number, script, inputs. -/
structure NoteRecipient where
  serial_num : Word
  script : NoteScript
  inputs : NoteInputs
deriving DecidableEq, Repr

/-- Embeds `NoteRecipient::new`. -/
def NoteRecipient.new (serial_num : Word) (script : NoteScript)
    (inputs : NoteInputs) : NoteRecipient :=
  ⟨serial_num, script, inputs⟩

/-- A deterministic mixing step for the modelled hashes. -/
def mix (acc x : Nat) : Nat := acc * 1000003 + x + 1

/-- Fold a field-element encoding into a single digest value. -/
def hashFelts (xs : List Nat) : Nat := xs.foldl mix 5381

/-- Flat encoding of a word. -/
def Word.encode (w : Word) : List Nat := [w.w0, w.w1, w.w2, w.w3]

/-- Flat encoding of an asset. -/
def Asset.encode (a : Asset) : List Nat := [a.faucet_id.pfx, a.faucet_id.sfx, a.amount]

/-- Flat encoding of a vault. -/
def NoteAssets.encode (v : NoteAssets) : List Nat :=
  v.assets.length :: (v.assets.map Asset.encode).flatten

/-- Flat encoding of a note type. -/
def NoteType.encode : NoteType → Nat
  | .publicNote => 0
  | .privateNote => 1

/-- Flat encoding of metadata. -/
def NoteMetadata.encode (m : NoteMetadata) : List Nat :=
  [m.sender.pfx, m.sender.sfx, m.note_type.encode, m.tag.value, m.aux]

/-- Modelled from the spec: the recipient digest is a deterministic "hash
of (serial number, script, inputs)"; the real hash lives in the miden
library, the model uses a concrete deterministic digest over the same
fields. -/
def NoteRecipient.digest (r : NoteRecipient) : Nat :=
  hashFelts (r.serial_num.encode ++ (r.script.root :: r.inputs.values))

/-- A committed, self-contained transfer unit (`Note`). -/
structure Note where
  vault : NoteAssets
  metadata : NoteMetadata
  recipient : NoteRecipient
deriving DecidableEq, Repr

/-- Embeds `Note::new(vault, metadata, recipient)`. -/
def Note.new (vault : NoteAssets) (metadata : NoteMetadata)
    (recipient : NoteRecipient) : Note :=
  ⟨vault, metadata, recipient⟩

/-- Modelled from the spec: the note commitment is a "deterministic hash
binding a note's vault, metadata, and recipient"; the real hash lives in
the miden library, the model uses a concrete deterministic digest over
exactly those three fields. -/
def Note.commitment (n : Note) : Nat :=
  hashFelts (n.vault.encode ++ n.metadata.encode ++ [n.recipient.digest])

/-- Embeds `create_p2id_note_exact` (`src/main.rs` lines 24-42 and
`src/bin/mint.rs` lines 23-41): builds the P2ID note from typed inputs,
propagating each construction error with `?`. The statement order follows
the Rust body: inputs, recipient, tag, metadata, vault, note. -/
def create_p2id_note_exact (sender target : AccountId) (assets : List Asset)
    (note_type : NoteType) (aux : Felt) (serial_num : Word) :
    Except NoteError Note := do
  let note_script := WellKnownNote.script .P2ID
  let note_inputs ← NoteInputs.new [target.suffix, target.prefix_as_felt]
  let recipient := NoteRecipient.new serial_num note_script note_inputs
  let tag := NoteTag.from_account_id target
  let metadata ← NoteMetadata.new sender note_type tag .always aux
  let vault ← NoteAssets.new assets
  pure (Note.new vault metadata recipient)

/-- Lifecycle state of a submitted transaction (`TransactionStatus`):
Pending, Committed with block number, or Discarded with a cause. Causes are
embedded as opaque numeric codes. -/
inductive TransactionStatus where
  | Pending
  | Committed (block_number : Nat)
  | Discarded (cause : Nat)
deriving DecidableEq, Repr

/-- What one iteration of the wait loop observes from the network: the
`sync_state` call may fail, the `get_transactions` fetch may fail, the
result vector may be empty (transaction not found), or it carries a tracked
transaction with a status. Error payloads are opaque numeric codes. -/
inductive PollResponse where
  | syncError (code : Nat)
  | fetchError (code : Nat)
  | notFound
  | found (status : TransactionStatus)
deriving DecidableEq, Repr

/-- The observable outcome of `wait_for_transaction`: `ok` embeds the Rust
`Ok(())` — note that it carries no data; the error variants embed the four
ways the Rust function returns `Err` (sync failure propagated by `?`, the
"Failed to fetch transaction status" error, the "Transaction ... not found"
error, and the "Transaction was discarded" error carrying the cause). -/
inductive WaitOutcome where
  | ok
  | syncFailed (code : Nat)
  | fetchFailed (code : Nat)
  | txNotFound
  | discarded (cause : Nat)
deriving DecidableEq, Repr

/-- Embeds the loop of `wait_for_transaction` (`src/bin/mint.rs` lines
44-84) as a fuel-indexed interpreter: `oracle i` is what the i-th iteration
observes after its resync, `fuel` bounds how many iterations are unfolded,
and `none` means the loop is still running after `fuel` iterations (the
Rust loop itself has no iteration bound: only a terminal status, a fetch
error, a sync error or not-found exits it; `Pending` sleeps one second and
repeats). -/
def wait_for_transaction (oracle : Nat → PollResponse) :
    Nat → Nat → Option WaitOutcome
  | 0, _ => none
  | fuel + 1, i =>
    match oracle i with
    | .syncError c => some (.syncFailed c)
    | .fetchError c => some (.fetchFailed c)
    | .notFound => some .txNotFound
    | .found .Pending => wait_for_transaction oracle fuel (i + 1)
    | .found (.Committed _) => some .ok
    | .found (.Discarded cause) => some (.discarded cause)

/-- The externally visible events of one run of the wait loop: a resync, a
status lookup, printing the commit block number, and sleeping a fixed
number of seconds between polls. -/
inductive WaitEvent where
  | sync
  | lookup
  | printBlock (block_number : Nat)
  | sleepSecs (secs : Nat)
deriving DecidableEq, Repr

/-- Trace semantics of the same loop: each iteration first resyncs
(`client.sync_state()`), then — unless the resync failed — performs exactly
one status lookup (`client.get_transactions`); on `Committed` it prints the
block number and stops; on `Pending` it sleeps 1 second and repeats; every
other observation stops the loop right after the lookup. -/
def wait_trace (oracle : Nat → PollResponse) : Nat → Nat → List WaitEvent
  | 0, _ => []
  | fuel + 1, i =>
    match oracle i with
    | .syncError _ => [.sync]
    | .fetchError _ => [.sync, .lookup]
    | .notFound => [.sync, .lookup]
    | .found .Pending => .sync :: .lookup :: .sleepSecs 1 :: wait_trace oracle fuel (i + 1)
    | .found (.Committed b) => [.sync, .lookup, .printBlock b]
    | .found (.Discarded _) => [.sync, .lookup]

/-- Account storage as seen through `storage().get_item(slot)`: a total map
from slot index to the stored word (the sources unwrap the lookup). -/
def AccountStorage := Nat → Word

/-- Embeds `src/bin/mint.rs` lines 163-164: read storage slot 2 and rebuild
the owner account id from the word's elements 3 and 2, in that order, via
`AccountId::new_unchecked` — with no validity check and no error branch. -/
def derive_stored_owner_id_mint (storage : AccountStorage) : AccountId :=
  let stored_owner_word := storage 2
  AccountId.new_unchecked (stored_owner_word.get 3, stored_owner_word.get 2)

/-- Embeds `src/main.rs` lines 147-148: the identical derivation in the
other mint flow. -/
def derive_stored_owner_id_main (storage : AccountStorage) : AccountId :=
  let stored_owner_word := storage 2
  AccountId.new_unchecked (stored_owner_word.get 3, stored_owner_word.get 2)

/-- The waiting-relevant steps of a top-level mint flow, in program order:
a state resync, a transaction submission (0 = the mint transaction, 1 = the
consume transaction), a fixed-duration sleep, or an invocation of the
polling wait loop `wait_for_transaction` for a submitted transaction. -/
inductive PipelineStep where
  | syncState
  | submitTransaction (which : Nat)
  | fixedSleep (secs : Nat)
  | pollWaitLoop (which : Nat)
deriving DecidableEq, Repr

/-- Whether a pipeline step is an invocation of the polling wait loop. -/
def PipelineStep.isPollWait : PipelineStep → Bool
  | .pollWaitLoop _ => true
  | _ => false

/-- Whether a pipeline step is a fixed-duration sleep. -/
def PipelineStep.isFixedSleep : PipelineStep → Bool
  | .fixedSleep _ => true
  | _ => false

/-- The ordered waiting-relevant steps of `main` in `src/main.rs`: resync
(line 65), submit the mint transaction (line 187), sleep a fixed 15 seconds
(line 196), submit the consume transaction (line 204) — no polling wait
loop anywhere. -/
def main_rs_pipeline : List PipelineStep :=
  [.syncState, .submitTransaction 0, .fixedSleep 15, .submitTransaction 1]

/-- The ordered waiting-relevant steps of `main` in `src/bin/mint.rs`:
resync (line 104), submit the mint transaction (line 210), poll-wait for it
(line 223), submit the consume transaction (line 233), poll-wait for it
(line 245), final resync (line 249) — no fixed sleep anywhere. -/
def mint_rs_pipeline : List PipelineStep :=
  [.syncState, .submitTransaction 0, .pollWaitLoop 0,
   .submitTransaction 1, .pollWaitLoop 1, .syncState]

/-- A concrete note used to instantiate witnesses on the note factory: the
result of `create_p2id_note_exact` for sender ⟨1, 2⟩, target ⟨3, 4⟩, one
50-unit asset of faucet ⟨1, 2⟩, a private note, aux 27 and serial number
⟨5, 6, 7, 8⟩. -/
def sampleNote : Note :=
  Note.new ⟨[⟨⟨1, 2⟩, 50⟩]⟩ ⟨⟨1, 2⟩, .privateNote, ⟨3⟩, .always, 27⟩
    (NoteRecipient.new ⟨5, 6, 7, 8⟩ ⟨1⟩ ⟨[4, 3]⟩)

/-- C1: note commitment is deterministic. For every fixed tuple of inputs
(sender, target, assets, note type, aux, serial number), any two successful
invocations of `create_p2id_note_exact` produce notes with equal
commitments; more generally, any two notes with identical vault, metadata
and recipient have equal commitments — the commitment is a pure function of
exactly those three fields. -/
theorem create_p2id_note_commitment_deterministic
    (sender target : AccountId) (assets : List Asset) (note_type : NoteType)
    (aux : Felt) (serial_num : Word) (n1 n2 : Note)
    (h1 : create_p2id_note_exact sender target assets note_type aux serial_num = .ok n1)
    (h2 : create_p2id_note_exact sender target assets note_type aux serial_num = .ok n2)
    (m1 m2 : Note)
    (hv : m1.vault = m2.vault) (hm : m1.metadata = m2.metadata)
    (hr : m1.recipient = m2.recipient) :
    n1.commitment = n2.commitment ∧ m1.commitment = m2.commitment := by
  constructor
  · rw [h1] at h2
    injection h2 with h
    rw [h]
  · cases m1
    cases m2
    cases hv
    cases hm
    cases hr
    rfl

/-- Witness for C1 at the concrete inputs of `sampleNote`. -/
theorem create_p2id_note_commitment_deterministic_witness :
    sampleNote.commitment = sampleNote.commitment
    ∧ sampleNote.commitment = sampleNote.commitment :=
  create_p2id_note_commitment_deterministic ⟨1, 2⟩ ⟨3, 4⟩ [⟨⟨1, 2⟩, 50⟩]
    .privateNote 27 ⟨5, 6, 7, 8⟩ sampleNote sampleNote rfl rfl
    sampleNote sampleNote rfl rfl rfl

/-- C7: on every success, `create_p2id_note_exact` builds the note so that
its inputs are exactly [target-suffix, target-prefix] (in that order), its
routing tag is derived deterministically from the target alone, its
recipient is computed over (serial number, P2ID script, inputs), and its
commitment over (vault, metadata, recipient). -/
theorem create_p2id_note_exact_structure
    (sender target : AccountId) (assets : List Asset) (note_type : NoteType)
    (aux : Felt) (serial_num : Word) (note : Note)
    (h : create_p2id_note_exact sender target assets note_type aux serial_num = .ok note) :
    note.recipient.inputs.values = [target.suffix, target.prefix_as_felt]
    ∧ note.metadata.tag = NoteTag.from_account_id target
    ∧ note.recipient = NoteRecipient.new serial_num (WellKnownNote.script .P2ID)
        ⟨[target.suffix, target.prefix_as_felt]⟩
    ∧ note.recipient.digest
        = hashFelts (serial_num.encode
            ++ ((WellKnownNote.script .P2ID).root :: [target.suffix, target.prefix_as_felt]))
    ∧ note.commitment
        = hashFelts (note.vault.encode ++ note.metadata.encode ++ [note.recipient.digest]) := by
  unfold create_p2id_note_exact NoteInputs.new NoteMetadata.new NoteAssets.new at h
  simp only [bind, Except.bind, pure] at h
  split at h
  next => cases h
  next v heq =>
    split at heq
    next =>
      injection heq with hv
      subst hv
      split at h
      next => cases h
      next w heqw =>
        split at heqw
        next => cases heqw
        next =>
          split at heqw
          next => cases heqw
          next =>
            injection heqw with hw
            subst hw
            injection h with hn
            subst hn
            exact ⟨rfl, rfl, rfl, rfl, rfl⟩
    next => cases heq

/-- Witness for C7 at the concrete inputs of `sampleNote`. -/
theorem create_p2id_note_exact_structure_witness :
    sampleNote.recipient.inputs.values = [4, 3]
    ∧ sampleNote.metadata.tag = NoteTag.from_account_id ⟨3, 4⟩
    ∧ sampleNote.recipient
        = NoteRecipient.new ⟨5, 6, 7, 8⟩ (WellKnownNote.script .P2ID) ⟨[4, 3]⟩
    ∧ sampleNote.recipient.digest
        = hashFelts ((⟨5, 6, 7, 8⟩ : Word).encode
            ++ ((WellKnownNote.script .P2ID).root :: [4, 3]))
    ∧ sampleNote.commitment
        = hashFelts (sampleNote.vault.encode ++ sampleNote.metadata.encode
            ++ [sampleNote.recipient.digest]) :=
  create_p2id_note_exact_structure ⟨1, 2⟩ ⟨3, 4⟩ [⟨⟨1, 2⟩, 50⟩] .privateNote 27
    ⟨5, 6, 7, 8⟩ sampleNote rfl

/-- C8: `create_p2id_note_exact` fails with a note-construction error
exactly when the assets list is empty, when the vault rejects an
incompatible asset combination (two assets from one faucet), or when the
metadata tag violates its encoding constraint; since the result is either
an error or a note, it succeeds in every other case. -/
theorem create_p2id_note_exact_failure_iff
    (sender target : AccountId) (assets : List Asset) (note_type : NoteType)
    (aux : Felt) (serial_num : Word) :
    (∃ e, create_p2id_note_exact sender target assets note_type aux serial_num = .error e)
      ↔ (assets = [] ∨ hasDuplicateFaucet assets = true
         ∨ tagEncodingOk (NoteTag.from_account_id target) = false) := by
  unfold create_p2id_note_exact NoteInputs.new NoteMetadata.new NoteAssets.new
  simp only [bind, Except.bind, pure]
  by_cases ht : tagEncodingOk (NoteTag.from_account_id target) = true
  · by_cases he : assets = []
    · simp [ht, he]
    · by_cases hd : hasDuplicateFaucet assets = true
      · simp [ht, he, hd]
      · simp [ht, he, hd, Except.pure]
  · simp [ht]

/-- C2 (amended): the wait loop of `wait_for_transaction` has no `max_wait`
or `poll_interval` parameter and no `Timeout` outcome at all: when every
poll iteration observes `Pending` it sleeps one second and repeats without
bound, so no number of unfolded iterations produces any result. -/
theorem wait_pending_polls_forever (fuel i : Nat) :
    wait_for_transaction (fun _ => .found .Pending) fuel i = none := by
  induction fuel generalizing i with
  | zero => rfl
  | succ n ih => simpa [wait_for_transaction] using ih (i + 1)

/-- Counterexample to C2 as stated: against an oracle whose status is
`Pending` on every poll, the loop has returned nothing after 0 iterations
and has still returned nothing after 20 iterations — there is no iteration
or wall-clock bound and no `Timeout` error is ever returned (the outcome
type of the code has no such variant). -/
theorem wait_pending_no_timeout_counterexample :
    wait_for_transaction (fun _ => .found .Pending) 0 0 = none
    ∧ wait_for_transaction (fun _ => .found .Pending) 20 0 = none :=
  ⟨rfl, rfl⟩

/-- C3: when the status lookup finds no transaction for the id, the wait
operation returns the distinct not-found error immediately: the iteration's
trace is a resync followed by one lookup, with no sleep and no repetition
(unlike the `Pending` branch), leaving any retry policy to the caller. -/
theorem wait_not_found_immediate_error (oracle : Nat → PollResponse) (fuel i : Nat)
    (h : oracle i = .notFound) :
    wait_for_transaction oracle (fuel + 1) i = some .txNotFound
    ∧ wait_trace oracle (fuel + 1) i = [.sync, .lookup] := by
  constructor <;> simp [wait_for_transaction, wait_trace, h]

/-- Witness for C3: a concrete oracle that reports not-found at once. -/
theorem wait_not_found_immediate_error_witness :
    wait_for_transaction (fun _ => .notFound) 1 0 = some .txNotFound
    ∧ wait_trace (fun _ => .notFound) 1 0 = [.sync, .lookup] :=
  wait_not_found_immediate_error (fun _ => .notFound) 0 0 rfl

/-- C4 (amended): if a poll iteration observes `Committed`, the wait
operation terminates successfully in that iteration; the commit block
height is printed, but the success value is unit — the Rust function
returns `Ok(())`, not the block height. -/
theorem wait_committed_unit_success (oracle : Nat → PollResponse) (fuel i b : Nat)
    (h : oracle i = .found (.Committed b)) :
    wait_for_transaction oracle (fuel + 1) i = some .ok
    ∧ wait_trace oracle (fuel + 1) i = [.sync, .lookup, .printBlock b] := by
  constructor <;> simp [wait_for_transaction, wait_trace, h]

/-- Witness for C4's amended theorem at a concrete committed oracle. -/
theorem wait_committed_unit_success_witness :
    wait_for_transaction (fun _ => .found (.Committed 7)) 1 0 = some .ok
    ∧ wait_trace (fun _ => .found (.Committed 7)) 1 0
        = [.sync, .lookup, .printBlock 7] :=
  wait_committed_unit_success (fun _ => .found (.Committed 7)) 0 0 7 rfl

/-- Counterexample to C4 as stated: two runs that commit at different block
heights (7 and 9) return identical success values, so the success value
cannot be the block height at which the transaction was committed. -/
theorem wait_committed_success_carries_no_block_height :
    wait_for_transaction (fun _ => .found (.Committed 7)) 1 0
      = wait_for_transaction (fun _ => .found (.Committed 9)) 1 0
    ∧ (7 : Nat) ≠ 9 :=
  ⟨rfl, by decide⟩

/-- C5: if a poll iteration observes `Discarded(cause)`, the wait operation
terminates immediately with an error carrying that cause; the iteration's
trace is a resync and one lookup, after which no further poll happens. -/
theorem wait_discarded_terminal_error (oracle : Nat → PollResponse) (fuel i cause : Nat)
    (h : oracle i = .found (.Discarded cause)) :
    wait_for_transaction oracle (fuel + 1) i = some (.discarded cause)
    ∧ wait_trace oracle (fuel + 1) i = [.sync, .lookup] := by
  constructor <;> simp [wait_for_transaction, wait_trace, h]

/-- Witness for C5: a concrete oracle that reports a discard with cause 42. -/
theorem wait_discarded_terminal_error_witness :
    wait_for_transaction (fun _ => .found (.Discarded 42)) 1 0
      = some (.discarded 42)
    ∧ wait_trace (fun _ => .found (.Discarded 42)) 1 0 = [.sync, .lookup] :=
  wait_discarded_terminal_error (fun _ => .found (.Discarded 42)) 0 0 42 rfl

/-- C6: in every run of the wait loop, a status lookup is always
immediately preceded by a resync in the same iteration: every `lookup`
event in the trace stands right after a `sync` event. -/
theorem wait_lookup_preceded_by_sync (oracle : Nat → PollResponse) (fuel i k : Nat)
    (h : (wait_trace oracle fuel i).get? k = some .lookup) :
    ∃ j, k = j + 1 ∧ (wait_trace oracle fuel i).get? j = some .sync := by
  induction fuel generalizing i k with
  | zero => simp [wait_trace] at h
  | succ n ih =>
    rcases ho : oracle i with c | c | _ | st
    · simp only [wait_trace, ho] at h ⊢
      rcases k with _ | k
      · simp at h
      · simp [List.get?] at h
    · simp only [wait_trace, ho] at h ⊢
      rcases k with _ | _ | k
      · simp at h
      · exact ⟨0, rfl, rfl⟩
      · simp [List.get?] at h
    · simp only [wait_trace, ho] at h ⊢
      rcases k with _ | _ | k
      · simp at h
      · exact ⟨0, rfl, rfl⟩
      · simp [List.get?] at h
    · cases st with
      | Pending =>
        simp only [wait_trace, ho] at h ⊢
        rcases k with _ | _ | _ | k
        · simp at h
        · exact ⟨0, rfl, rfl⟩
        · simp [List.get?] at h
        · obtain ⟨j, rfl, hj⟩ := ih (i + 1) k h
          exact ⟨j + 3, rfl, hj⟩
      | Committed b =>
        simp only [wait_trace, ho] at h ⊢
        rcases k with _ | _ | k
        · simp at h
        · exact ⟨0, rfl, rfl⟩
        · rcases k with _ | k <;> simp at h
      | Discarded c =>
        simp only [wait_trace, ho] at h ⊢
        rcases k with _ | _ | k
        · simp at h
        · exact ⟨0, rfl, rfl⟩
        · simp [List.get?] at h

/-- Witness for C6: in the one-iteration trace of a committed run the
lookup at position 1 is preceded by the sync at position 0. -/
theorem wait_lookup_preceded_by_sync_witness :
    ∃ j, 1 = j + 1
      ∧ (wait_trace (fun _ => .found (.Committed 3)) 1 0).get? j
          = some WaitEvent.sync :=
  wait_lookup_preceded_by_sync (fun _ => .found (.Committed 3)) 1 0 1 rfl

/-- C9: the `src/main.rs` pipeline waits for the mint transaction's
commitment by sleeping a fixed 15 seconds between the two submissions and
never invokes the polling wait loop, while the `src/bin/mint.rs` pipeline
contains no fixed sleep — evaluating both flows' waiting-relevant step
lists at once. -/
theorem main_rs_pipeline_uses_fixed_sleep :
    PipelineStep.fixedSleep 15 ∈ main_rs_pipeline
    ∧ main_rs_pipeline.all (fun s => ! s.isPollWait) = true
    ∧ mint_rs_pipeline.all (fun s => ! s.isFixedSleep) = true := by
  decide

/-- C10: both mint flows derive the faucet owner id by reading storage slot
2 and packing the word's elements 3 and 2, in that order, through
`AccountId.new_unchecked`; the last conjunct shows `new_unchecked` applies
no validity check — it packs any raw pair of field elements into an id, and
the derivation is total with no error branch. -/
theorem stored_owner_id_unchecked_derivation (storage : AccountStorage)
    (e : Felt × Felt) :
    derive_stored_owner_id_mint storage
        = AccountId.new_unchecked ((storage 2).get 3, (storage 2).get 2)
    ∧ derive_stored_owner_id_main storage
        = AccountId.new_unchecked ((storage 2).get 3, (storage 2).get 2)
    ∧ AccountId.new_unchecked e = { pfx := e.1, sfx := e.2 } :=
  ⟨rfl, rfl, rfl⟩

end NetworkFaucet
